import Mathlib

/-!
Verification of the nanoparticle bot's conversational core

A shallow embedding, in Lean 4, of the parameter validator
(`validateParameters` / `convertParametersToObject` in the utils module),
the prediction gateway (`makeModelPrediction` in the ML service), and the
two dialog controllers (`handlePredictionResponse` in the prediction
handler, `startAddResult` / `handleAddResultResponse` in the result-entry
handler), together with theorems settling the specification's claims
about them.

JavaScript numbers are modelled as exact rationals extended with `NaN`
and the two infinities (`JsNum`).  This drops IEEE-754 rounding and the
negative zero; every comparison and branch the embedded code performs is
insensitive to rounding, and `-0` is observationally equal to `0` for
every comparison the code makes (the only operation distinguishing them,
division, is reached only with a strictly positive divisor).
`parseFloat` and `parseInt` are modelled by their ECMAScript decimal
(and, for `parseInt`, hexadecimal) grammars over the ASCII and Cyrillic
characters the bot's inputs use.
-/

/-- A JavaScript number: `NaN`, `±Infinity`, or a finite value modelled
as an exact rational. -/
inductive JsNum where
  | nan : JsNum
  | inf : JsNum
  | ninf : JsNum
  | fin (q : ℚ) : JsNum
deriving DecidableEq, Repr

namespace JsNum

/-- JavaScript `isNaN` (on a number). -/
def isNaN : JsNum → Bool
  | .nan => true
  | _ => false

/-- JavaScript `<`: any comparison with `NaN` is `false`. -/
def jsLt : JsNum → JsNum → Bool
  | .nan, _ => false
  | _, .nan => false
  | .fin a, .fin b => decide (a < b)
  | .inf, _ => false
  | _, .inf => true
  | .ninf, _ => true
  | _, .ninf => false

/-- JavaScript `<=`: any comparison with `NaN` is `false`. -/
def jsLe : JsNum → JsNum → Bool
  | .nan, _ => false
  | _, .nan => false
  | .fin a, .fin b => decide (a ≤ b)
  | _, .inf => true
  | .inf, _ => false
  | .ninf, _ => true
  | _, .ninf => false

/-- JavaScript `>`. -/
def jsGt (a b : JsNum) : Bool := jsLt b a

/-- JavaScript `>=`. -/
def jsGe (a b : JsNum) : Bool := jsLe b a

/-- JavaScript division.  `x / 0` with `x ≠ 0` gives an infinity of the
sign of `x` (the model has no `-0`, so the divisor `0` counts as `+0`),
`0 / 0` gives `NaN`, and `NaN` propagates. -/
def jsDiv : JsNum → JsNum → JsNum
  | .nan, _ => .nan
  | _, .nan => .nan
  | .fin a, .fin b =>
      if b = 0 then (if a = 0 then .nan else if a > 0 then .inf else .ninf)
      else .fin (a / b)
  | .inf, .inf => .nan
  | .inf, .ninf => .nan
  | .ninf, .inf => .nan
  | .ninf, .ninf => .nan
  | .inf, .fin b => if b < 0 then .ninf else .inf
  | .ninf, .fin b => if b < 0 then .inf else .ninf
  | .fin _, .inf => .fin 0
  | .fin _, .ninf => .fin 0

end JsNum

/-! The ECMAScript string-to-number grammars -/

/-- The whitespace characters relevant to the bot's inputs (ASCII
subset of ECMAScript `WhiteSpace`/`LineTerminator`). -/
def isJsWs (c : Char) : Bool :=
  c = ' ' || c = '\t' || c = '\n' || c = '\r'

/-- Decimal digit test. -/
def isDigit (c : Char) : Bool := '0' ≤ c && c ≤ '9'

/-- Hexadecimal digit test. -/
def isHexDigit (c : Char) : Bool :=
  isDigit c || ('a' ≤ c && c ≤ 'f') || ('A' ≤ c && c ≤ 'F')

/-- Value of a decimal digit. -/
def digitVal (c : Char) : ℕ := c.toNat - '0'.toNat

/-- Value of a hexadecimal digit. -/
def hexDigitVal (c : Char) : ℕ :=
  if 'a' ≤ c && c ≤ 'f' then c.toNat - 'a'.toNat + 10
  else if 'A' ≤ c && c ≤ 'F' then c.toNat - 'A'.toNat + 10
  else digitVal c

/-- Accumulate a digit list into a natural number, base `b`. -/
def digitsToNat (b : ℕ) (f : Char → ℕ) (ds : List Char) : ℕ :=
  ds.foldl (fun a c => a * b + f c) 0

/-- The rational `sm · 10^shift` (built with `Rat.divInt` so that it
evaluates by kernel reduction). -/
def decScale (sm : ℤ) (shift : ℤ) : ℚ :=
  if 0 ≤ shift then Rat.divInt (sm * (10 : ℤ) ^ shift.toNat) 1
  else Rat.divInt sm ((10 : ℤ) ^ (-shift).toNat)

/-- Longest prefix of decimal digits, with the rest. -/
def spanDigits (cs : List Char) : List Char × List Char :=
  (cs.takeWhile isDigit, cs.dropWhile isDigit)

/-- Parse an optional ECMAScript `ExponentPart` (`e`/`E`, optional sign,
digits); an incomplete exponent is ignored, as `parseFloat` backtracks
over it. -/
def parseExponent (cs : List Char) : ℤ :=
  match cs with
  | 'e' :: r | 'E' :: r =>
      let (neg, r') := match r with
        | '-' :: t => (true, t)
        | '+' :: t => (false, t)
        | _ => (false, r)
      let (ds, _) := spanDigits r'
      if ds.isEmpty then 0
      else if neg then -(digitsToNat 10 digitVal ds : ℤ) else (digitsToNat 10 digitVal ds : ℤ)
  | _ => 0

/-- `parseFloat` on a character list: skip whitespace, optional sign,
then the longest `StrDecimalLiteral` prefix (`Infinity`, or digits with
an optional fraction and exponent); `NaN` if no digit is consumed. -/
def parseFloatCore (cs0 : List Char) : JsNum :=
  let cs1 := cs0.dropWhile isJsWs
  let (neg, cs) := match cs1 with
    | '-' :: r => (true, r)
    | '+' :: r => (false, r)
    | _ => (false, cs1)
  if "Infinity".data.isPrefixOf cs then
    (if neg then .ninf else .inf)
  else
    let (ip, r1) := spanDigits cs
    let (fp, r2) := match r1 with
      | '.' :: r => spanDigits r
      | _ => ([], r1)
    if ip.isEmpty && fp.isEmpty then .nan
    else
      let m : ℕ := digitsToNat 10 digitVal (ip ++ fp)
      let sm : ℤ := if neg then -(m : ℤ) else (m : ℤ)
      let e : ℤ := parseExponent r2
      .fin (decScale sm (e - (fp.length : ℤ)))

/-- JavaScript `parseFloat`. -/
def jsParseFloat (s : String) : JsNum := parseFloatCore s.data

/-- `parseInt` (radix unspecified, as the source calls it): skip
whitespace, optional sign, then either a `0x`/`0X` hexadecimal prefix
or the longest decimal-digit prefix; `NaN` if no digit is consumed. -/
def parseIntCore (cs0 : List Char) : Option ℤ :=
  let cs1 := cs0.dropWhile isJsWs
  let (neg, cs) := match cs1 with
    | '-' :: r => (true, r)
    | '+' :: r => (false, r)
    | _ => (false, cs1)
  let (base, f, body) := match cs with
    | '0' :: 'x' :: r => (16, hexDigitVal, r.takeWhile isHexDigit)
    | '0' :: 'X' :: r => (16, hexDigitVal, r.takeWhile isHexDigit)
    | _ => (10, digitVal, cs.takeWhile isDigit)
  if body.isEmpty then none
  else
    let n : ℕ := digitsToNat base f body
    some (if neg then -(n : ℤ) else (n : ℤ))

/-- JavaScript `parseInt`, as a `JsNum` (`NaN` when no digits parse). -/
def jsParseInt (s : String) : JsNum :=
  match parseIntCore s.data with
  | none => .nan
  | some n => .fin (n : ℚ)

/-! String helpers used by the handlers -/

/-- JavaScript `String.prototype.trim` (ASCII whitespace). -/
def jsTrim (s : String) : String :=
  ⟨((s.data.dropWhile isJsWs).reverse.dropWhile isJsWs).reverse⟩

/-- JavaScript `String.prototype.toLowerCase`, restricted to the Latin
and Cyrillic letters the bot's messages use (`A`–`Z`, `А`–`Я`, `Ё`). -/
def jsCharToLower (c : Char) : Char :=
  if 'A' ≤ c && c ≤ 'Z' then Char.ofNat (c.toNat + 32)
  else if 'А' ≤ c && c ≤ 'Я' then Char.ofNat (c.toNat + 32)
  else if c = 'Ё' then 'ё'
  else c

/-- `toLowerCase` on a string. -/
def jsToLower (s : String) : String := ⟨s.data.map jsCharToLower⟩

/-- Helper for splitting on whitespace runs: accumulates the current
token (reversed) and emits it at each whitespace run or at the end. -/
def splitWsAux : List Char → List Char → List (List Char)
  | [], acc => if acc.isEmpty then [] else [acc.reverse]
  | c :: r, acc =>
      if isJsWs c then
        if acc.isEmpty then splitWsAux r [] else acc.reverse :: splitWsAux r []
      else splitWsAux r (c :: acc)

/-- The prediction handler's tokenization,
`msg.text.trim().split(/\s+/).map(p => p.trim())`: splitting the
trimmed text on whitespace runs.  `"".split(/\s+/)` is `[""]`; the
per-token trim is the identity because tokens contain no whitespace. -/
def jsSplitTokens (text : String) : List String :=
  let t := jsTrim text
  if t = "" then [""] else (splitWsAux t.data []).map (fun w => ⟨w⟩)

/-! Sanity checks of the number grammars against ECMAScript behaviour. -/

example : jsParseFloat "7.5" = .fin (Rat.divInt 15 2) := by decide
example : jsParseFloat "500" = .fin 500 := by decide
example : jsParseFloat "-2e1" = .fin (-20) := by decide
example : jsParseFloat "" = .nan := by decide
example : jsParseFloat ".5" = .fin (Rat.divInt 1 2) := by decide
example : jsParseFloat "5." = .fin 5 := by decide
example : jsParseFloat "Infinity" = .inf := by decide
example : jsParseFloat "/cancel" = .nan := by decide
example : jsParseFloat "  12abc" = .fin 12 := by decide
example : jsParseInt "7.5" = .fin 7 := by decide
example : jsParseInt "-11" = .fin (-11) := by decide
example : jsParseInt "0x10" = .fin 16 := by decide
example : jsParseInt "abc" = .nan := by decide
example : jsToLower "/CanCel" = "/cancel" := by decide
example : jsToLower "Да" = "да" := by decide
example : jsSplitTokens " 1  1 3 2 11 500 30 " = ["1", "1", "3", "2", "11", "500", "30"] := by decide
example : jsSplitTokens "" = [""] := by decide

/-! The Parameter Validator (`validateParameters`) and the record
constructor (`convertParametersToObject`) -/

open JsNum in
/-- Result of `validateParameters`: `{valid: true}` or
`{valid: false, error}`. -/
inductive ValidationResult where
  | valid : ValidationResult
  | invalid (error : String) : ValidationResult
deriving DecidableEq, Repr

/-- The parameter-count error message (interpolating the received
count, as the source's template literal does). -/
def parameterCountErrorMsg (n : ℕ) : String :=
  "Неверное количество параметров (" ++ toString n ++ "). Ожидается 7 или 8 параметров."

/-- Error message for the europium-concentration field. -/
def euErrorMsg : String := "Концентрация Eu должна быть неотрицательным числом."

/-- Error message for the phenanthroline-concentration field. -/
def phenErrorMsg : String := "Концентрация Фенантролина должна быть неотрицательным числом."

/-- Error message for the ligand-concentration field. -/
def ligandErrorMsg : String := "Концентрация Лиганда должна быть неотрицательным числом."

/-- Error message for the ligand-type field. -/
def ligandTypeErrorMsg : String := "Вид лиганда должен быть числом от 0 до 3."

/-- Error message for the pH field. -/
def phErrorMsg : String := "pH BSA должен быть целым числом от 7 до 11."

/-- Error message for the addition-volume field. -/
def volumeErrorMsg : String := "Объем добавления должен быть положительным числом."

/-- Error message for the addition-time field. -/
def timeErrorMsg : String := "Время добавления должно быть положительным числом."

/-- Error message for the addition-rate field. -/
def rateErrorMsg : String := "Скорость добавления должна быть положительным числом."

open JsNum in
/-- `validateParameters(paramArray)`: rejects unless the token count is
7 or 8, parses each position (`parseFloat`, with `parseInt` for ligand
type and pH, and the rate defaulting to `volume / time` for 7 tokens),
then checks each field in the source's fixed order. -/
def validateParameters (paramArray : List String) : ValidationResult :=
  if paramArray.length < 7 || paramArray.length > 8 then
    .invalid (parameterCountErrorMsg paramArray.length)
  else
    let euConcentration := jsParseFloat (paramArray.getD 0 "")
    let phenanthrolineConcentration := jsParseFloat (paramArray.getD 1 "")
    let ligandConcentration := jsParseFloat (paramArray.getD 2 "")
    let ligandType := jsParseInt (paramArray.getD 3 "")
    let phBsa := jsParseInt (paramArray.getD 4 "")
    let additionVolume := jsParseFloat (paramArray.getD 5 "")
    let additionTime := jsParseFloat (paramArray.getD 6 "")
    let additionRate :=
      if paramArray.length = 8 then jsParseFloat (paramArray.getD 7 "")
      else jsDiv additionVolume additionTime
    if isNaN euConcentration || jsLt euConcentration (.fin 0) then
      .invalid euErrorMsg
    else if isNaN phenanthrolineConcentration || jsLt phenanthrolineConcentration (.fin 0) then
      .invalid phenErrorMsg
    else if isNaN ligandConcentration || jsLt ligandConcentration (.fin 0) then
      .invalid ligandErrorMsg
    else if isNaN ligandType || jsLt ligandType (.fin 0) || jsGt ligandType (.fin 3) then
      .invalid ligandTypeErrorMsg
    else if isNaN phBsa || jsLt phBsa (.fin 7) || jsGt phBsa (.fin 11) then
      .invalid phErrorMsg
    else if isNaN additionVolume || jsLe additionVolume (.fin 0) then
      .invalid volumeErrorMsg
    else if isNaN additionTime || jsLe additionTime (.fin 0) then
      .invalid timeErrorMsg
    else if isNaN additionRate || jsLe additionRate (.fin 0) then
      .invalid rateErrorMsg
    else
      .valid

/-- The parameter object built by `convertParametersToObject`. -/
structure ParameterRecord where
  euConcentration : JsNum
  phenanthrolineConcentration : JsNum
  ligandConcentration : JsNum
  ligandType : JsNum
  phBsa : JsNum
  additionVolume : JsNum
  additionTime : JsNum
  additionRate : JsNum
deriving DecidableEq, Repr

open JsNum in
/-- `convertParametersToObject(paramArray)`: parses each position
exactly as `validateParameters` does and packs the eight fields. -/
def convertParametersToObject (paramArray : List String) : ParameterRecord :=
  let euConcentration := jsParseFloat (paramArray.getD 0 "")
  let phenanthrolineConcentration := jsParseFloat (paramArray.getD 1 "")
  let ligandConcentration := jsParseFloat (paramArray.getD 2 "")
  let ligandType := jsParseInt (paramArray.getD 3 "")
  let phBsa := jsParseInt (paramArray.getD 4 "")
  let additionVolume := jsParseFloat (paramArray.getD 5 "")
  let additionTime := jsParseFloat (paramArray.getD 6 "")
  let additionRate :=
    if paramArray.length = 8 then jsParseFloat (paramArray.getD 7 "")
    else jsDiv additionVolume additionTime
  { euConcentration := euConcentration
    phenanthrolineConcentration := phenanthrolineConcentration
    ligandConcentration := ligandConcentration
    ligandType := ligandType
    phBsa := phBsa
    additionVolume := additionVolume
    additionTime := additionTime
    additionRate := additionRate }

/-! Sanity checks: the two scenarios of the specification. -/

example : validateParameters ["1", "1", "3", "2", "11", "500", "30", "10"] = .valid := by decide

example :
    (convertParametersToObject ["2", "2", "6", "1", "9", "340", "34", "10"]).additionRate
      = .fin 10 := by decide

/-! The Prediction Gateway (`makeModelPrediction` in the subprocess
ML service)

The external process and the event loop are abstracted by a
`ProcBehavior`: when (if ever) the process's `close` event would fire,
with what exit code, diagnostic output and parsed standard output.
`JSON.parse` of the captured stdout is represented by its result
(`none` when parsing throws). -/

/-- A JSON value, as produced by `JSON.parse`. -/
inductive Json where
  | null : Json
  | bool (b : Bool) : Json
  | num (q : ℚ) : Json
  | str (s : String) : Json
  | arr (elems : List Json) : Json
  | obj (fields : List (String × Json)) : Json

/-- Property lookup on parsed-JSON object fields; with duplicate keys
`JSON.parse` keeps the last occurrence. -/
def jsonLookup (fields : List (String × Json)) (k : String) : Option Json :=
  (fields.reverse.find? (fun p => p.1 == k)).map (·.2)

/-- The `result.error` property access: a field of an object, absent
(`undefined`) on every other value except `null`, whose property access
throws and is treated by the caller's `catch`. -/
def errorField : Json → Option Json
  | .obj fields => jsonLookup fields "error"
  | _ => none

/-- JavaScript truthiness of a parsed JSON value (an absent field,
`undefined`, is falsy and is handled by the `Option` layer). -/
def jsTruthy : Json → Bool
  | .null => false
  | .bool b => b
  | .num q => !(q == 0)
  | .str s => !(s == "")
  | .arr _ => true
  | .obj _ => true

/-- `String(v)` as used by `new Error(result.error)` for a truthy error
field.  Exact for strings and booleans — the only shapes the claims
exercise; the number, array and object renderings abbreviate
JavaScript's (`"1,2"`, `"[object Object]"`, decimal float notation). -/
def jsErrorMessage : Json → String
  | .str s => s
  | .bool b => if b then "true" else "false"
  | .num q => toString q
  | .null => "null"
  | .arr _ => "[array]"
  | .obj _ => "[object Object]"

/-- How a `makeModelPrediction` promise settles. -/
inductive PredictionOutcome where
  | resolved (result : Json) : PredictionOutcome
  | rejected (message : String) : PredictionOutcome

/-- The gateway's `close` handler: nonzero exit code rejects with the
diagnostic message; otherwise `JSON.parse` failure — or the `TypeError`
of reading `.error` on JSON `null` — is caught and rejects with
`"Invalid prediction response"`; a truthy `error` field rejects with
that message; anything else resolves verbatim (no required-field
check). -/
def onProcClose (code : ℤ) (errorOutput : String) (parsed : Option Json) : PredictionOutcome :=
  if code ≠ 0 then
    .rejected ("Python script exited with code " ++ toString code ++ ". Error: " ++ errorOutput)
  else
    match parsed with
    | none => .rejected "Invalid prediction response"
    | some .null => .rejected "Invalid prediction response"
    | some j =>
        match errorField j with
        | some v => if jsTruthy v then .rejected (jsErrorMessage v) else .resolved j
        | none => .resolved j

/-- Observable behaviour of one spawned predictor process: the time (in
ms from the spawn) at which its `close` event would fire — `none` if it
would never fire — plus exit code, captured stderr, and the
`JSON.parse` of its captured stdout. -/
structure ProcBehavior where
  closeAt : Option ℕ
  exitCode : ℤ
  errorOutput : String
  parsedOutput : Option Json

/-- The gateway's timeout: `setTimeout(..., 15000)`. -/
def PREDICTION_TIMEOUT_MS : ℕ := 15000

/-- One complete gateway call: when the promise settled (ms from
spawn), whether `py.kill('SIGKILL')` was invoked, and the settlement. -/
structure GatewayRun where
  settledAt : ℕ
  killed : Bool
  outcome : PredictionOutcome

/-- `makeModelPrediction`, as a function of the process behaviour: a
`close` event within the 15000 ms timeout clears the timer and settles
via the `close` handler; otherwise the timer fires at 15000 ms, kills
the process and rejects with `"Prediction timeout"` (a later `close` of
the killed process hits an already-settled promise). -/
def makeModelPrediction (b : ProcBehavior) : GatewayRun :=
  match b.closeAt with
  | some t =>
      if t ≤ PREDICTION_TIMEOUT_MS then
        { settledAt := t, killed := false
          outcome := onProcClose b.exitCode b.errorOutput b.parsedOutput }
      else
        { settledAt := PREDICTION_TIMEOUT_MS, killed := true
          outcome := .rejected "Prediction timeout" }
  | none =>
      { settledAt := PREDICTION_TIMEOUT_MS, killed := true
        outcome := .rejected "Prediction timeout" }

/-! The Prediction Flow controller (`handlePredictionResponse`)

Sessions live in a per-user map (`predictionState`); the embedding
models one user's slot as an `Option`.  Outbound traffic is modelled as
a list of abstract message tags in emission order. -/

/-- One user's entry in `predictionState`. -/
structure PredSession where
  state : String
deriving DecidableEq, Repr

/-- Messages the prediction handler can emit (the result summary is
sent by editing the processing placeholder; both are listed in
emission order). -/
inductive PredMsg where
  | cancelled : PredMsg
  | paramError (error : String) : PredMsg
  | processing : PredMsg
  | resultSummary : PredMsg
  | genericError : PredMsg
deriving DecidableEq, Repr

/-- `startPrediction`: drops any existing session for the user, emits
the instructions, and stores `{state: 'awaiting_parameters'}`. -/
def startPrediction : Option PredSession × List PredMsg :=
  (some { state := "awaiting_parameters" }, [])

open JsNum in
/-- `handlePredictionResponse` for one user: `text` is the message text
(`""` for a falsy `msg.text`), `gw` the settlement of the
`makeModelPrediction` call (consulted only when validation passes), and
`persistEditOk` abstracts whether the awaited repository `create` and
message edit succeed; their failure is caught by the same `catch` as a
gateway rejection.  Returns the user's new session slot and the
emitted messages. -/
def handlePredictionResponse (session : Option PredSession) (text : String)
    (gw : PredictionOutcome) (persistEditOk : Bool) :
    Option PredSession × List PredMsg :=
  if text = "" then (session, [])
  else
    match session with
    | none => (none, [])
    | some userState =>
        if userState.state ≠ "awaiting_parameters" then (some userState, [])
        else if jsToLower text = "/cancel" then (none, [.cancelled])
        else
          let paramArray := jsSplitTokens text
          match validateParameters paramArray with
          | .invalid e => (some userState, [.paramError e])
          | .valid =>
              match gw with
              | .rejected _ => (none, [.processing, .genericError])
              | .resolved _ =>
                  if persistEditOk then (none, [.processing, .resultSummary])
                  else (none, [.processing, .genericError])

/-! The Result-Entry Flow controller (`startAddResult` /
`handleAddResultResponse`)

The experiment repository is modelled as a list of rows; `findOne`
matches on experiment id and owning user, `save` writes the row back.
One user's entry in the `addResultState` map is an `Option`. -/

/-- A stored experiment row (the fields the result-entry flow reads and
writes; `null` actual values are `none`). -/
structure Experiment where
  experimentId : String
  userId : String
  predictedSize : JsNum
  predictedPdI : JsNum
  actualSize : Option JsNum
  actualPdI : Option JsNum
deriving DecidableEq, Repr

/-- `Experiment.findOne({where: {experimentId, userId}})`. -/
def findExperiment (store : List Experiment) (experimentId userId : String) :
    Option Experiment :=
  store.find? (fun e => e.experimentId == experimentId && e.userId == userId)

/-- `experiment.save()`: write the row back into the store. -/
def saveExperiment (store : List Experiment) (e : Experiment) : List Experiment :=
  store.map (fun x =>
    if x.experimentId == e.experimentId && x.userId == e.userId then e else x)

/-- One user's entry in `addResultState`: the state tag, the experiment
id, and the actual size once entered (`none` while the property is not
yet set). -/
structure AddResultSession where
  state : String
  experimentId : String
  actualSize : Option JsNum
deriving DecidableEq, Repr

/-- Messages the result-entry handler can emit. -/
inductive AddResultMsg where
  | notFound : AddResultMsg
  | overwritePrompt : AddResultMsg
  | showAndAskSize : AddResultMsg
  | cancelled : AddResultMsg
  | askPdI (size : JsNum) : AddResultMsg
  | invalidSize : AddResultMsg
  | invalidPdI : AddResultMsg
  | savedSummary (experimentId : String) : AddResultMsg
  | genericError : AddResultMsg
deriving DecidableEq, Repr

/-- `startAddResult` for one user: looks the experiment up; not found
leaves the user's session slot untouched; both actual fields already
populated (`!== null`) enters `awaiting_overwrite_confirmation`;
otherwise displays the record and enters `awaiting_actual_size`. -/
def startAddResult (store : List Experiment) (userId experimentId : String)
    (session : Option AddResultSession) :
    Option AddResultSession × List AddResultMsg :=
  match findExperiment store experimentId userId with
  | none => (session, [.notFound])
  | some experiment =>
      if experiment.actualSize.isSome && experiment.actualPdI.isSome then
        (some { state := "awaiting_overwrite_confirmation"
                experimentId := experimentId, actualSize := none },
         [.overwritePrompt])
      else
        (some { state := "awaiting_actual_size"
                experimentId := experimentId, actualSize := none },
         [.showAndAskSize])

open JsNum in
/-- `handleAddResultResponse` for one user: `text` is the message text
(`""` for a falsy `msg.text`).  Returns the user's new session slot,
the updated store, and the emitted messages.  In the two branches that
re-fetch the experiment, a missing row makes the subsequent property
access throw; the surrounding `catch` emits the generic error and
clears the session.  In the save branch the session's `actualSize` is
necessarily set (`.getD .nan` renders the unreachable unset case). -/
def handleAddResultResponse (store : List Experiment) (userId : String)
    (session : Option AddResultSession) (text : String) :
    Option AddResultSession × List Experiment × List AddResultMsg :=
  if text = "" then (session, store, [])
  else
    match session with
    | none => (none, store, [])
    | some userState =>
        if jsToLower text = "/cancel" then (none, store, [.cancelled])
        else if userState.state = "awaiting_overwrite_confirmation" then
          if jsToLower text = "да" then
            match findExperiment store userState.experimentId userId with
            | some _ =>
                (some { userState with state := "awaiting_actual_size" }, store,
                 [.showAndAskSize])
            | none => (none, store, [.genericError])
          else (none, store, [.cancelled])
        else if userState.state = "awaiting_actual_size" then
          let size := jsParseFloat (jsTrim text)
          if isNaN size || jsLe size (.fin 0) then
            (some userState, store, [.invalidSize])
          else
            (some { userState with state := "awaiting_actual_pdi", actualSize := some size },
             store, [.askPdI size])
        else if userState.state = "awaiting_actual_pdi" then
          let pdi := jsParseFloat (jsTrim text)
          if isNaN pdi || jsLt pdi (.fin 0) then
            (some userState, store, [.invalidPdI])
          else
            match findExperiment store userState.experimentId userId with
            | none => (none, store, [.genericError])
            | some experiment =>
                let experiment' :=
                  { experiment with
                      actualSize := some (userState.actualSize.getD .nan)
                      actualPdI := some pdi }
                (none, saveExperiment store experiment',
                 [.savedSummary experiment.experimentId])
        else (some userState, store, [])

/-! Helper lemmas -/

namespace JsNum

/-- Passing the `isNaN(x) || x < c` check means `x >= c` in JavaScript
semantics. -/
theorem jsGe_of_check_lt (x : JsNum) (c : ℚ)
    (h : (x.isNaN || x.jsLt (.fin c)) = false) : x.jsGe (.fin c) = true := by
  cases x <;> simp_all [isNaN, jsLt, jsLe, jsGe]

/-- Passing the `isNaN(x) || x <= c` check means `x > c` in JavaScript
semantics. -/
theorem jsGt_of_check_le (x : JsNum) (c : ℚ)
    (h : (x.isNaN || x.jsLe (.fin c)) = false) : x.jsGt (.fin c) = true := by
  cases x <;> simp_all [isNaN, jsLt, jsLe, jsGt]

end JsNum

/-- `parseInt` yields `NaN` or a mathematical integer. -/
theorem jsParseInt_nan_or_int (s : String) :
    jsParseInt s = .nan ∨ ∃ n : ℤ, jsParseInt s = .fin (n : ℚ) := by
  unfold jsParseInt
  cases parseIntCore s.data with
  | none => exact Or.inl rfl
  | some n => exact Or.inr ⟨n, rfl⟩

/-- Passing the integer range check `isNaN(x) || x < lo || x > hi` on a
`parseInt` result yields an integer in `[lo, hi]`. -/
theorem jsParseInt_range_of_check (s : String) (lo hi : ℤ)
    (h : ((jsParseInt s).isNaN || (jsParseInt s).jsLt (.fin (lo : ℚ))
          || (jsParseInt s).jsGt (.fin (hi : ℚ))) = false) :
    ∃ n : ℤ, jsParseInt s = .fin (n : ℚ) ∧ lo ≤ n ∧ n ≤ hi := by
  rcases jsParseInt_nan_or_int s with hn | ⟨n, hn⟩
  · rw [hn] at h; simp [JsNum.isNaN] at h
  · rw [hn] at h
    simp [JsNum.isNaN, JsNum.jsLt, JsNum.jsGt] at h
    exact ⟨n, hn, by exact_mod_cast h.1, by exact_mod_cast h.2⟩

/-- The parameter-count error message starts with the letter `Н`, which
no field error message does. -/
theorem parameterCountErrorMsg_head (n : ℕ) :
    (parameterCountErrorMsg n).data.head? = some 'Н' := rfl

/-- A string whose first character is not `Н` is not a parameter-count
error message. -/
theorem ne_parameterCountErrorMsg (m : String) (hm : m.data.head? ≠ some 'Н') (n : ℕ) :
    m ≠ parameterCountErrorMsg n :=
  fun h => hm (by rw [h, parameterCountErrorMsg_head])

/-! Claim C5: the parameter-count error -/

/-- Claim C5: For every token sequence whose length is neither 7 nor 8,
`validateParameters` fails with the parameter-count error; and for no
sequence of length 7 or 8 does it fail with that error. -/
theorem validate_count_error (toks : List String) :
    (toks.length ≠ 7 → toks.length ≠ 8 →
      validateParameters toks = .invalid (parameterCountErrorMsg toks.length))
    ∧ ((toks.length = 7 ∨ toks.length = 8) →
      ∀ n : ℕ, validateParameters toks ≠ .invalid (parameterCountErrorMsg n)) := by
  constructor
  · intro h7 h8
    have hc : (toks.length < 7 || toks.length > 8) = true := by
      simp only [Bool.or_eq_true, decide_eq_true_eq]; omega
    simp [validateParameters, hc]
  · intro hlen n heq
    have hc : (toks.length < 7 || toks.length > 8) = false := by
      rcases hlen with h | h <;> simp [h]
    rw [validateParameters] at heq
    rw [hc] at heq
    simp only [Bool.false_eq_true, if_false] at heq
    repeat' split at heq
    all_goals
      first
        | exact ValidationResult.noConfusion heq
        | exact ne_parameterCountErrorMsg _ (by decide) n (ValidationResult.invalid.inj heq)

/-- Witness for C5: a 3-token input fails with the count error; the
7-token example input does not fail with the count error. -/
theorem validate_count_error_witness :
    validateParameters ["1", "2", "3"] = .invalid (parameterCountErrorMsg 3)
    ∧ validateParameters ["1", "1", "3", "2", "11", "500", "30"]
        ≠ .invalid (parameterCountErrorMsg 7) :=
  ⟨(validate_count_error ["1", "2", "3"]).1 (by decide) (by decide),
   (validate_count_error ["1", "1", "3", "2", "11", "500", "30"]).2 (Or.inl rfl) 7⟩

/-! Characterizing validator acceptance -/

/-- The addition rate as both `validateParameters` and
`convertParametersToObject` compute it: the 8th token when present,
otherwise `volume / time`. -/
def derivedAdditionRate (toks : List String) : JsNum :=
  if toks.length = 8 then jsParseFloat (toks.getD 7 "")
  else JsNum.jsDiv (jsParseFloat (toks.getD 5 "")) (jsParseFloat (toks.getD 6 ""))

/-- `validateParameters` accepts exactly when the token count is 7 or 8
and each of the source's eight field checks passes. -/
theorem validateParameters_eq_valid_iff (toks : List String) :
    validateParameters toks = .valid ↔
      (toks.length < 7 || toks.length > 8) = false
      ∧ ((jsParseFloat (toks.getD 0 "")).isNaN
          || (jsParseFloat (toks.getD 0 "")).jsLt (.fin 0)) = false
      ∧ ((jsParseFloat (toks.getD 1 "")).isNaN
          || (jsParseFloat (toks.getD 1 "")).jsLt (.fin 0)) = false
      ∧ ((jsParseFloat (toks.getD 2 "")).isNaN
          || (jsParseFloat (toks.getD 2 "")).jsLt (.fin 0)) = false
      ∧ ((jsParseInt (toks.getD 3 "")).isNaN
          || (jsParseInt (toks.getD 3 "")).jsLt (.fin 0)
          || (jsParseInt (toks.getD 3 "")).jsGt (.fin 3)) = false
      ∧ ((jsParseInt (toks.getD 4 "")).isNaN
          || (jsParseInt (toks.getD 4 "")).jsLt (.fin 7)
          || (jsParseInt (toks.getD 4 "")).jsGt (.fin 11)) = false
      ∧ ((jsParseFloat (toks.getD 5 "")).isNaN
          || (jsParseFloat (toks.getD 5 "")).jsLe (.fin 0)) = false
      ∧ ((jsParseFloat (toks.getD 6 "")).isNaN
          || (jsParseFloat (toks.getD 6 "")).jsLe (.fin 0)) = false
      ∧ ((derivedAdditionRate toks).isNaN
          || (derivedAdditionRate toks).jsLe (.fin 0)) = false := by
  simp only [validateParameters, derivedAdditionRate]
  by_cases h0 : (toks.length < 7 || toks.length > 8) = true
  · exact if_pos h0 ▸ iff_of_false (fun hv => ValidationResult.noConfusion hv)
      (fun hR => Bool.false_ne_true (hR.1 ▸ h0))
  rw [Bool.not_eq_true] at h0
  rw [if_neg (fun hc => Bool.false_ne_true (h0 ▸ hc))]
  by_cases h1 : ((jsParseFloat (toks.getD 0 "")).isNaN
      || (jsParseFloat (toks.getD 0 "")).jsLt (.fin 0)) = true
  · exact if_pos h1 ▸ iff_of_false (fun hv => ValidationResult.noConfusion hv)
      (fun hR => Bool.false_ne_true (hR.2.1 ▸ h1))
  rw [Bool.not_eq_true] at h1
  rw [if_neg (fun hc => Bool.false_ne_true (h1 ▸ hc))]
  by_cases h2 : ((jsParseFloat (toks.getD 1 "")).isNaN
      || (jsParseFloat (toks.getD 1 "")).jsLt (.fin 0)) = true
  · exact if_pos h2 ▸ iff_of_false (fun hv => ValidationResult.noConfusion hv)
      (fun hR => Bool.false_ne_true (hR.2.2.1 ▸ h2))
  rw [Bool.not_eq_true] at h2
  rw [if_neg (fun hc => Bool.false_ne_true (h2 ▸ hc))]
  by_cases h3 : ((jsParseFloat (toks.getD 2 "")).isNaN
      || (jsParseFloat (toks.getD 2 "")).jsLt (.fin 0)) = true
  · exact if_pos h3 ▸ iff_of_false (fun hv => ValidationResult.noConfusion hv)
      (fun hR => Bool.false_ne_true (hR.2.2.2.1 ▸ h3))
  rw [Bool.not_eq_true] at h3
  rw [if_neg (fun hc => Bool.false_ne_true (h3 ▸ hc))]
  by_cases h4 : ((jsParseInt (toks.getD 3 "")).isNaN
      || (jsParseInt (toks.getD 3 "")).jsLt (.fin 0)
      || (jsParseInt (toks.getD 3 "")).jsGt (.fin 3)) = true
  · exact if_pos h4 ▸ iff_of_false (fun hv => ValidationResult.noConfusion hv)
      (fun hR => Bool.false_ne_true (hR.2.2.2.2.1 ▸ h4))
  rw [Bool.not_eq_true] at h4
  rw [if_neg (fun hc => Bool.false_ne_true (h4 ▸ hc))]
  by_cases h5 : ((jsParseInt (toks.getD 4 "")).isNaN
      || (jsParseInt (toks.getD 4 "")).jsLt (.fin 7)
      || (jsParseInt (toks.getD 4 "")).jsGt (.fin 11)) = true
  · exact if_pos h5 ▸ iff_of_false (fun hv => ValidationResult.noConfusion hv)
      (fun hR => Bool.false_ne_true (hR.2.2.2.2.2.1 ▸ h5))
  rw [Bool.not_eq_true] at h5
  rw [if_neg (fun hc => Bool.false_ne_true (h5 ▸ hc))]
  by_cases h6 : ((jsParseFloat (toks.getD 5 "")).isNaN
      || (jsParseFloat (toks.getD 5 "")).jsLe (.fin 0)) = true
  · exact if_pos h6 ▸ iff_of_false (fun hv => ValidationResult.noConfusion hv)
      (fun hR => Bool.false_ne_true (hR.2.2.2.2.2.2.1 ▸ h6))
  rw [Bool.not_eq_true] at h6
  rw [if_neg (fun hc => Bool.false_ne_true (h6 ▸ hc))]
  by_cases h7 : ((jsParseFloat (toks.getD 6 "")).isNaN
      || (jsParseFloat (toks.getD 6 "")).jsLe (.fin 0)) = true
  · exact if_pos h7 ▸ iff_of_false (fun hv => ValidationResult.noConfusion hv)
      (fun hR => Bool.false_ne_true (hR.2.2.2.2.2.2.2.1 ▸ h7))
  rw [Bool.not_eq_true] at h7
  rw [if_neg (fun hc => Bool.false_ne_true (h7 ▸ hc))]
  by_cases h8 : ((if toks.length = 8 then jsParseFloat (toks.getD 7 "")
      else JsNum.jsDiv (jsParseFloat (toks.getD 5 "")) (jsParseFloat (toks.getD 6 ""))).isNaN
      || (if toks.length = 8 then jsParseFloat (toks.getD 7 "")
      else JsNum.jsDiv (jsParseFloat (toks.getD 5 "")) (jsParseFloat (toks.getD 6 ""))).jsLe
        (.fin 0)) = true
  · exact if_pos h8 ▸ iff_of_false (fun hv => ValidationResult.noConfusion hv)
      (fun hR => Bool.false_ne_true (hR.2.2.2.2.2.2.2.2 ▸ h8))
  rw [Bool.not_eq_true] at h8
  rw [if_neg (fun hc => Bool.false_ne_true (h8 ▸ hc))]
  exact iff_of_true rfl ⟨h0, h1, h2, h3, h4, h5, h6, h7, h8⟩

/-! Claim C6: range rejection -/

/-- Claim C6, counterexample: The pH token `"7.5"` denotes the
non-integer 15/2 (denominator 2), so the claim's parenthetical demands
rejection; but `parseInt` truncates it to the in-range 7 and the
validator accepts the input. -/
theorem validate_accepts_nonint_ph_token :
    jsParseFloat "7.5" = .fin (Rat.divInt 15 2)
    ∧ (Rat.divInt 15 2).den = 2
    ∧ jsParseInt "7.5" = .fin 7
    ∧ validateParameters ["1", "1", "3", "2", "7.5", "500", "30", "10"] = .valid := by
  refine ⟨by decide, by decide, by decide, by decide⟩

/-- Claim C6, amended: For every token sequence of length 7 or 8, the
validator rejects whenever the parsed ligand type is outside
`{0,1,2,3}`, the parsed pH is outside `7..11`, volume, time or rate is
`≤ 0`, or a concentration is `< 0` — where ligand type and pH are
parsed by `parseInt`'s integer-prefix truncation, so only a token with
no parseable numeric prefix (`NaN`) counts as outside its set. -/
theorem validate_rejects_out_of_range (toks : List String)
    (_hlen : toks.length = 7 ∨ toks.length = 8)
    (hviol :
      ((jsParseInt (toks.getD 3 "")).isNaN || (jsParseInt (toks.getD 3 "")).jsLt (.fin 0)
        || (jsParseInt (toks.getD 3 "")).jsGt (.fin 3)) = true
      ∨ ((jsParseInt (toks.getD 4 "")).isNaN || (jsParseInt (toks.getD 4 "")).jsLt (.fin 7)
        || (jsParseInt (toks.getD 4 "")).jsGt (.fin 11)) = true
      ∨ ((jsParseFloat (toks.getD 5 "")).isNaN
        || (jsParseFloat (toks.getD 5 "")).jsLe (.fin 0)) = true
      ∨ ((jsParseFloat (toks.getD 6 "")).isNaN
        || (jsParseFloat (toks.getD 6 "")).jsLe (.fin 0)) = true
      ∨ ((derivedAdditionRate toks).isNaN
        || (derivedAdditionRate toks).jsLe (.fin 0)) = true
      ∨ ((jsParseFloat (toks.getD 0 "")).isNaN
        || (jsParseFloat (toks.getD 0 "")).jsLt (.fin 0)) = true
      ∨ ((jsParseFloat (toks.getD 1 "")).isNaN
        || (jsParseFloat (toks.getD 1 "")).jsLt (.fin 0)) = true
      ∨ ((jsParseFloat (toks.getD 2 "")).isNaN
        || (jsParseFloat (toks.getD 2 "")).jsLt (.fin 0)) = true) :
    validateParameters toks ≠ .valid := by
  intro hv
  rw [validateParameters_eq_valid_iff] at hv
  obtain ⟨-, c1, c2, c3, c4, c5, c6, c7, c8⟩ := hv
  rcases hviol with h | h | h | h | h | h | h | h
  · exact Bool.false_ne_true (c4 ▸ h)
  · exact Bool.false_ne_true (c5 ▸ h)
  · exact Bool.false_ne_true (c6 ▸ h)
  · exact Bool.false_ne_true (c7 ▸ h)
  · exact Bool.false_ne_true (c8 ▸ h)
  · exact Bool.false_ne_true (c1 ▸ h)
  · exact Bool.false_ne_true (c2 ▸ h)
  · exact Bool.false_ne_true (c3 ▸ h)

/-- Witness for C6 (amended): ligand type 5 is rejected. -/
theorem validate_rejects_out_of_range_witness :
    validateParameters ["1", "1", "3", "5", "7", "500", "30", "10"] ≠ .valid :=
  validate_rejects_out_of_range ["1", "1", "3", "5", "7", "500", "30", "10"]
    (Or.inr rfl) (Or.inl (by decide))

/-! Claims C7 and C8: the constructed record -/

/-- `convertParametersToObject` computes the same rate expression as the
validator. -/
theorem convert_additionRate_eq (toks : List String) :
    (convertParametersToObject toks).additionRate = derivedAdditionRate toks := rfl

/-- The record's volume field is the parse of token 5. -/
theorem convert_additionVolume_eq (toks : List String) :
    (convertParametersToObject toks).additionVolume = jsParseFloat (toks.getD 5 "") := rfl

/-- The record's time field is the parse of token 6. -/
theorem convert_additionTime_eq (toks : List String) :
    (convertParametersToObject toks).additionTime = jsParseFloat (toks.getD 6 "") := rfl

/-- Claim C7: For every accepted 7-token input the record's rate is
`volume / time` (exact rational division on finite values); for every
accepted 8-token input the rate is the parse of the 8th token verbatim. -/
theorem convert_rate_derivation (toks : List String)
    (hvalid : validateParameters toks = .valid) :
    (toks.length = 7 →
      (convertParametersToObject toks).additionRate
        = JsNum.jsDiv (convertParametersToObject toks).additionVolume
            (convertParametersToObject toks).additionTime
      ∧ ∀ v t : ℚ, (convertParametersToObject toks).additionVolume = .fin v →
          (convertParametersToObject toks).additionTime = .fin t →
          0 < t ∧ (convertParametersToObject toks).additionRate = .fin (v / t))
    ∧ (toks.length = 8 →
      (convertParametersToObject toks).additionRate = jsParseFloat (toks.getD 7 "")) := by
  rw [validateParameters_eq_valid_iff] at hvalid
  obtain ⟨-, -, -, -, -, -, -, c7, -⟩ := hvalid
  constructor
  · intro h7
    have hne : toks.length ≠ 8 := by omega
    have hrate : (convertParametersToObject toks).additionRate
        = JsNum.jsDiv (jsParseFloat (toks.getD 5 "")) (jsParseFloat (toks.getD 6 "")) := by
      rw [convert_additionRate_eq, derivedAdditionRate, if_neg hne]
    refine ⟨by rw [hrate, convert_additionVolume_eq, convert_additionTime_eq], ?_⟩
    intro v t hv ht
    rw [convert_additionVolume_eq] at hv
    rw [convert_additionTime_eq] at ht
    have htpos : 0 < t := by
      rw [ht] at c7
      simp [JsNum.isNaN, JsNum.jsLe] at c7
      linarith
    refine ⟨htpos, ?_⟩
    rw [hrate, hv, ht]
    simp [JsNum.jsDiv, ne_of_gt htpos]
  · intro h8
    rw [convert_additionRate_eq, derivedAdditionRate, if_pos h8]

/-- Witness for C7: the two example inputs of the specification. -/
theorem convert_rate_derivation_witness :
    (convertParametersToObject ["1", "1", "3", "2", "11", "500", "30"]).additionRate
      = JsNum.jsDiv (convertParametersToObject ["1", "1", "3", "2", "11", "500", "30"]).additionVolume
          (convertParametersToObject ["1", "1", "3", "2", "11", "500", "30"]).additionTime
    ∧ (convertParametersToObject ["2", "2", "6", "1", "9", "340", "34", "10"]).additionRate
        = jsParseFloat "10" := by
  constructor
  · refine ((convert_rate_derivation ["1", "1", "3", "2", "11", "500", "30"] ?_).1 rfl).1
    rw [validateParameters_eq_valid_iff]
    refine ⟨by decide, by decide, by decide, by decide, by decide, by decide, by decide,
      by decide, ?_⟩
    have hr : derivedAdditionRate ["1", "1", "3", "2", "11", "500", "30"]
        = JsNum.jsDiv (.fin 500) (.fin 30) := rfl
    rw [hr]
    have h30 : (30 : ℚ) ≠ 0 := by norm_num
    simp only [JsNum.jsDiv, if_neg h30]
    simp only [JsNum.isNaN, JsNum.jsLe, Bool.or_eq_false_iff, decide_eq_false_iff_not, not_le]
    exact ⟨trivial, by positivity⟩
  · exact (convert_rate_derivation ["2", "2", "6", "1", "9", "340", "34", "10"] (by decide)).2 rfl

/-- The record's europium field is the parse of token 0. -/
theorem convert_eu_eq (toks : List String) :
    (convertParametersToObject toks).euConcentration = jsParseFloat (toks.getD 0 "") := rfl

/-- The record's phenanthroline field is the parse of token 1. -/
theorem convert_phen_eq (toks : List String) :
    (convertParametersToObject toks).phenanthrolineConcentration
      = jsParseFloat (toks.getD 1 "") := rfl

/-- The record's ligand-concentration field is the parse of token 2. -/
theorem convert_ligandConc_eq (toks : List String) :
    (convertParametersToObject toks).ligandConcentration = jsParseFloat (toks.getD 2 "") := rfl

/-- The record's ligand-type field is the `parseInt` of token 3. -/
theorem convert_ligandType_eq (toks : List String) :
    (convertParametersToObject toks).ligandType = jsParseInt (toks.getD 3 "") := rfl

/-- The record's pH field is the `parseInt` of token 4. -/
theorem convert_phBsa_eq (toks : List String) :
    (convertParametersToObject toks).phBsa = jsParseInt (toks.getD 4 "") := rfl

/-- Claim C8: Every token array the validator accepts yields, through
`convertParametersToObject` (which parses each position identically), a
record all eight of whose fields satisfy their range constraints
simultaneously. -/
theorem accepted_record_in_range (toks : List String)
    (hvalid : validateParameters toks = .valid) :
    ((convertParametersToObject toks).euConcentration.jsGe (.fin 0) = true)
    ∧ ((convertParametersToObject toks).phenanthrolineConcentration.jsGe (.fin 0) = true)
    ∧ ((convertParametersToObject toks).ligandConcentration.jsGe (.fin 0) = true)
    ∧ (∃ n : ℤ, (convertParametersToObject toks).ligandType = .fin (n : ℚ)
        ∧ 0 ≤ n ∧ n ≤ 3)
    ∧ (∃ n : ℤ, (convertParametersToObject toks).phBsa = .fin (n : ℚ)
        ∧ 7 ≤ n ∧ n ≤ 11)
    ∧ ((convertParametersToObject toks).additionVolume.jsGt (.fin 0) = true)
    ∧ ((convertParametersToObject toks).additionTime.jsGt (.fin 0) = true)
    ∧ ((convertParametersToObject toks).additionRate.jsGt (.fin 0) = true) := by
  rw [validateParameters_eq_valid_iff] at hvalid
  obtain ⟨-, c1, c2, c3, c4, c5, c6, c7, c8⟩ := hvalid
  refine ⟨?_, ?_, ?_, ?_, ?_, ?_, ?_, ?_⟩
  · rw [convert_eu_eq]; exact JsNum.jsGe_of_check_lt _ 0 c1
  · rw [convert_phen_eq]; exact JsNum.jsGe_of_check_lt _ 0 c2
  · rw [convert_ligandConc_eq]; exact JsNum.jsGe_of_check_lt _ 0 c3
  · rw [convert_ligandType_eq]
    exact jsParseInt_range_of_check _ 0 3 (by exact_mod_cast c4)
  · rw [convert_phBsa_eq]
    exact jsParseInt_range_of_check _ 7 11 (by exact_mod_cast c5)
  · rw [convert_additionVolume_eq]; exact JsNum.jsGt_of_check_le _ 0 c6
  · rw [convert_additionTime_eq]; exact JsNum.jsGt_of_check_le _ 0 c7
  · rw [convert_additionRate_eq]; exact JsNum.jsGt_of_check_le _ 0 c8

/-- Witness for C8: the accepted 8-token example yields an in-range
record. -/
theorem accepted_record_in_range_witness :
    ((convertParametersToObject ["2", "2", "6", "1", "9", "340", "34", "10"]).euConcentration.jsGe
        (.fin 0) = true)
    ∧ ((convertParametersToObject
        ["2", "2", "6", "1", "9", "340", "34", "10"]).phenanthrolineConcentration.jsGe
          (.fin 0) = true)
    ∧ ((convertParametersToObject
        ["2", "2", "6", "1", "9", "340", "34", "10"]).ligandConcentration.jsGe (.fin 0) = true)
    ∧ (∃ n : ℤ, (convertParametersToObject
        ["2", "2", "6", "1", "9", "340", "34", "10"]).ligandType = .fin (n : ℚ) ∧ 0 ≤ n ∧ n ≤ 3)
    ∧ (∃ n : ℤ, (convertParametersToObject
        ["2", "2", "6", "1", "9", "340", "34", "10"]).phBsa = .fin (n : ℚ) ∧ 7 ≤ n ∧ n ≤ 11)
    ∧ ((convertParametersToObject
        ["2", "2", "6", "1", "9", "340", "34", "10"]).additionVolume.jsGt (.fin 0) = true)
    ∧ ((convertParametersToObject
        ["2", "2", "6", "1", "9", "340", "34", "10"]).additionTime.jsGt (.fin 0) = true)
    ∧ ((convertParametersToObject
        ["2", "2", "6", "1", "9", "340", "34", "10"]).additionRate.jsGt (.fin 0) = true) :=
  accepted_record_in_range ["2", "2", "6", "1", "9", "340", "34", "10"] (by decide)

/-! Claim C1: Prediction flow error handling -/

/-- Claim C1: In `AwaitingParameters`, a non-cancel free-text message
that fails validation gets the error message back and leaves the
session in place (retry possible); when validation passes and the
gateway call rejects, the user gets the generic failure message and
the session is cleared. -/
theorem prediction_flow_error_handling (s : PredSession) (text : String)
    (gw : PredictionOutcome) (ok : Bool)
    (hstate : s.state = "awaiting_parameters")
    (htext : text ≠ "") (hcancel : jsToLower text ≠ "/cancel") :
    (∀ e, validateParameters (jsSplitTokens text) = .invalid e →
        handlePredictionResponse (some s) text gw ok = (some s, [.paramError e]))
    ∧ (validateParameters (jsSplitTokens text) = .valid →
        ∀ m, gw = .rejected m →
        handlePredictionResponse (some s) text gw ok
          = (none, [.processing, .genericError])) := by
  constructor
  · intro e he
    simp [handlePredictionResponse, htext, hstate, hcancel, he]
  · intro hv m hm
    simp [handlePredictionResponse, htext, hstate, hcancel, hv, hm]

/-- Witness for C1: a 2-token message is re-prompted with the session
kept; a valid message with a rejecting gateway clears the session. -/
theorem prediction_flow_error_handling_witness :
    handlePredictionResponse (some { state := "awaiting_parameters" }) "1 2"
        (.rejected "x") true
      = (some { state := "awaiting_parameters" }, [.paramError (parameterCountErrorMsg 2)])
    ∧ handlePredictionResponse (some { state := "awaiting_parameters" })
        "2 2 6 1 9 340 34 10" (.rejected "Prediction timeout") true
      = (none, [.processing, .genericError]) :=
  ⟨(prediction_flow_error_handling { state := "awaiting_parameters" } "1 2"
      (.rejected "x") true rfl (by decide) (by decide)).1
      (parameterCountErrorMsg 2) (by decide),
   (prediction_flow_error_handling { state := "awaiting_parameters" } "2 2 6 1 9 340 34 10"
      (.rejected "Prediction timeout") true rfl (by decide) (by decide)).2
      (by decide) "Prediction timeout" rfl⟩

/-! Claim C2: Result-Entry numeric input validation -/

/-- Claim C2: In `AwaitingActualSize` a non-cancel message that does not
parse to a number `> 0` is re-prompted with session state and payload
unchanged; a parse `> 0` is stored in the payload with a transition to
`AwaitingActualPdI`; in `AwaitingActualPdI` a non-cancel message that
does not parse to a number `>= 0` is re-prompted without state
change. -/
theorem addresult_input_validation (store : List Experiment) (uid : String)
    (s : AddResultSession) (text : String)
    (htext : text ≠ "") (hcancel : jsToLower text ≠ "/cancel") :
    (s.state = "awaiting_actual_size" →
      ((jsParseFloat (jsTrim text)).isNaN
        || (jsParseFloat (jsTrim text)).jsLe (.fin 0)) = true →
      handleAddResultResponse store uid (some s) text = (some s, store, [.invalidSize]))
    ∧ (s.state = "awaiting_actual_size" →
      ((jsParseFloat (jsTrim text)).isNaN
        || (jsParseFloat (jsTrim text)).jsLe (.fin 0)) = false →
      handleAddResultResponse store uid (some s) text
        = (some { s with state := "awaiting_actual_pdi", actualSize := some (jsParseFloat (jsTrim text)) },
           store, [.askPdI (jsParseFloat (jsTrim text))]))
    ∧ (s.state = "awaiting_actual_pdi" →
      ((jsParseFloat (jsTrim text)).isNaN
        || (jsParseFloat (jsTrim text)).jsLt (.fin 0)) = true →
      handleAddResultResponse store uid (some s) text
        = (some s, store, [.invalidPdI])) := by
  refine ⟨?_, ?_, ?_⟩
  · intro hstate hbad
    simp [handleAddResultResponse, htext, hcancel, hstate, hbad]
  · intro hstate hgood
    simp [handleAddResultResponse, htext, hcancel, hstate, hgood]
  · intro hstate hbad
    simp [handleAddResultResponse, htext, hcancel, hstate, hbad]

/-- Witness for C2: in `AwaitingActualSize`, `"-5"` is re-prompted and
`"125.4"` advances storing the size; in `AwaitingActualPdI`, `"-1"` is
re-prompted. -/
theorem addresult_input_validation_witness :
    handleAddResultResponse [] "u"
        (some { state := "awaiting_actual_size", experimentId := "e1", actualSize := none })
        "-5"
      = (some { state := "awaiting_actual_size", experimentId := "e1", actualSize := none },
         [], [.invalidSize])
    ∧ handleAddResultResponse [] "u"
        (some { state := "awaiting_actual_size", experimentId := "e1", actualSize := none })
        "125.4"
      = (some { state := "awaiting_actual_pdi", experimentId := "e1", actualSize := some (jsParseFloat "125.4") },
         [], [.askPdI (jsParseFloat "125.4")])
    ∧ handleAddResultResponse [] "u"
        (some { state := "awaiting_actual_pdi", experimentId := "e1", actualSize := some (.fin 100) })
        "-1"
      = (some { state := "awaiting_actual_pdi", experimentId := "e1", actualSize := some (.fin 100) },
         [], [.invalidPdI]) :=
  ⟨(addresult_input_validation [] "u"
      { state := "awaiting_actual_size", experimentId := "e1", actualSize := none }
      "-5" (by decide) (by decide)).1 rfl (by decide),
   (addresult_input_validation [] "u"
      { state := "awaiting_actual_size", experimentId := "e1", actualSize := none }
      "125.4" (by decide) (by decide)).2.1 rfl (by decide),
   (addresult_input_validation [] "u"
      { state := "awaiting_actual_pdi", experimentId := "e1", actualSize := some (.fin 100) }
      "-1" (by decide) (by decide)).2.2 rfl (by decide)⟩

/-! Claim C3: overwrite confirmation -/

/-- Claim C3: Entering the Result-Entry flow for an experiment with both
actual fields populated enters `AwaitingOverwriteConfirmation`; in that
state only the confirmation token (text lowercasing to `"да"`)
re-enters `AwaitingActualSize`, and every other input clears the
session and leaves the store unmutated. -/
theorem addresult_overwrite_confirmation :
    (∀ (store : List Experiment) (uid eid : String) (sess : Option AddResultSession)
        (exp : Experiment),
      findExperiment store eid uid = some exp →
      exp.actualSize.isSome = true → exp.actualPdI.isSome = true →
      startAddResult store uid eid sess
        = (some { state := "awaiting_overwrite_confirmation", experimentId := eid, actualSize := none },
           [.overwritePrompt]))
    ∧ (∀ (store : List Experiment) (uid : String) (s : AddResultSession) (text : String),
      text ≠ "" → s.state = "awaiting_overwrite_confirmation" →
      (jsToLower text = "да" →
        ∀ exp, findExperiment store s.experimentId uid = some exp →
        handleAddResultResponse store uid (some s) text
          = (some { s with state := "awaiting_actual_size" }, store, [.showAndAskSize]))
      ∧ (jsToLower text ≠ "да" →
        handleAddResultResponse store uid (some s) text = (none, store, [.cancelled]))
      ∧ (∀ s', (handleAddResultResponse store uid (some s) text).1 = some s' →
        s'.state = "awaiting_actual_size" → jsToLower text = "да")) := by
  constructor
  · intro store uid eid sess exp hfind hsz hpdi
    simp [startAddResult, hfind, hsz, hpdi]
  · intro store uid s text htext hstate
    refine ⟨?_, ?_, ?_⟩
    · intro hyes exp hfind
      have hcancel : jsToLower text ≠ "/cancel" := by rw [hyes]; decide
      simp [handleAddResultResponse, htext, hcancel, hstate, hyes, hfind]
    · intro hother
      by_cases hcancel : jsToLower text = "/cancel"
      · simp [handleAddResultResponse, htext, hcancel]
      · simp [handleAddResultResponse, htext, hcancel, hstate, hother]
    · intro s' hs' hs'state
      by_cases hyes : jsToLower text = "да"
      · exact hyes
      · exfalso
        by_cases hcancel : jsToLower text = "/cancel"
        · simp [handleAddResultResponse, htext, hcancel] at hs'
        · simp [handleAddResultResponse, htext, hcancel, hstate, hyes] at hs'

/-- Witness for C3: an experiment with both actual fields set prompts
for overwrite confirmation; the reply `"нет"` cancels without mutation;
the reply `"Да"` re-enters `AwaitingActualSize`. -/
theorem addresult_overwrite_confirmation_witness :
    startAddResult
        [{ experimentId := "e1", userId := "u", predictedSize := .fin 100,
           predictedPdI := .fin 1, actualSize := some (.fin 90), actualPdI := some (.fin 1) }]
        "u" "e1" none
      = (some { state := "awaiting_overwrite_confirmation", experimentId := "e1", actualSize := none },
         [.overwritePrompt])
    ∧ handleAddResultResponse
        [{ experimentId := "e1", userId := "u", predictedSize := .fin 100,
           predictedPdI := .fin 1, actualSize := some (.fin 90), actualPdI := some (.fin 1) }]
        "u"
        (some { state := "awaiting_overwrite_confirmation", experimentId := "e1", actualSize := none })
        "нет"
      = (none,
         [{ experimentId := "e1", userId := "u", predictedSize := .fin 100,
            predictedPdI := .fin 1, actualSize := some (.fin 90), actualPdI := some (.fin 1) }],
         [.cancelled])
    ∧ handleAddResultResponse
        [{ experimentId := "e1", userId := "u", predictedSize := .fin 100,
           predictedPdI := .fin 1, actualSize := some (.fin 90), actualPdI := some (.fin 1) }]
        "u"
        (some { state := "awaiting_overwrite_confirmation", experimentId := "e1", actualSize := none })
        "Да"
      = (some { state := "awaiting_actual_size", experimentId := "e1", actualSize := none },
         [{ experimentId := "e1", userId := "u", predictedSize := .fin 100,
            predictedPdI := .fin 1, actualSize := some (.fin 90), actualPdI := some (.fin 1) }],
         [.showAndAskSize]) :=
  ⟨addresult_overwrite_confirmation.1 _ "u" "e1" none
      { experimentId := "e1", userId := "u", predictedSize := .fin 100,
        predictedPdI := .fin 1, actualSize := some (.fin 90), actualPdI := some (.fin 1) }
      (by decide) (by decide) (by decide),
   ((addresult_overwrite_confirmation.2 _ "u"
      { state := "awaiting_overwrite_confirmation", experimentId := "e1", actualSize := none }
      "нет" (by decide) rfl).2.1 (by decide)),
   ((addresult_overwrite_confirmation.2 _ "u"
      { state := "awaiting_overwrite_confirmation", experimentId := "e1", actualSize := none }
      "Да" (by decide) rfl).1 (by decide)
      { experimentId := "e1", userId := "u", predictedSize := .fin 100,
        predictedPdI := .fin 1, actualSize := some (.fin 90), actualPdI := some (.fin 1) }
      (by decide))⟩

/-! Claim C4: cancellation in `AwaitingActualPdI` -/

/-- Claim C4: A message lowercasing to `/cancel` while the session is in
`AwaitingActualPdI` clears the session, and a subsequent plain-text
message from the same user is ignored by the controller: no state
change, no store change, and no reply. -/
theorem addresult_cancel_then_ignored (store : List Experiment) (uid : String)
    (s : AddResultSession) (c t : String)
    (_hstate : s.state = "awaiting_actual_pdi") (hc : jsToLower c = "/cancel") :
    handleAddResultResponse store uid (some s) c = (none, store, [.cancelled])
    ∧ handleAddResultResponse store uid
        (handleAddResultResponse store uid (some s) c).1 t
      = ((handleAddResultResponse store uid (some s) c).1, store, []) := by
  have hcne : c ≠ "" := by
    intro h; rw [h] at hc; exact absurd hc (by decide)
  have h1 : handleAddResultResponse store uid (some s) c = (none, store, [.cancelled]) := by
    simp [handleAddResultResponse, hcne, hc]
  refine ⟨h1, ?_⟩
  rw [h1]
  by_cases ht : t = ""
  · simp [handleAddResultResponse, ht]
  · simp [handleAddResultResponse, ht]

/-- Witness for C4: `/CANCEL` (case-insensitive) clears the session
and the follow-up message `"0.2"` is ignored. -/
theorem addresult_cancel_then_ignored_witness :
    handleAddResultResponse [] "u"
        (some { state := "awaiting_actual_pdi", experimentId := "e1", actualSize := some (.fin 100) })
        "/CANCEL"
      = (none, [], [.cancelled])
    ∧ handleAddResultResponse [] "u"
        (handleAddResultResponse [] "u"
          (some { state := "awaiting_actual_pdi", experimentId := "e1", actualSize := some (.fin 100) })
          "/CANCEL").1 "0.2"
      = ((handleAddResultResponse [] "u"
          (some { state := "awaiting_actual_pdi", experimentId := "e1", actualSize := some (.fin 100) })
          "/CANCEL").1, [], []) :=
  addresult_cancel_then_ignored [] "u"
    { state := "awaiting_actual_pdi", experimentId := "e1", actualSize := some (.fin 100) }
    "/CANCEL" "0.2" rfl (by decide)

/-! Claim C9: the gateway's response handling -/

/-- Claim C9, counterexample: The predictor exits with code 0 and writes
`{}` — valid JSON lacking all four required fields (`size`, `pdi`,
`sizeConfidence`, `pdiConfidence`) — and the gateway resolves
successfully instead of failing with a parse error. -/
theorem gateway_missing_fields_resolve :
    onProcClose 0 "" (some (Json.obj [])) = .resolved (Json.obj []) := rfl

/-- Claim C9, amended: On exit code 0, the gateway rejects with the
parse-error message exactly when the output is not valid JSON (or is
JSON `null`, whose `error`-property access throws into the same
`catch`); it rejects with the model-error message exactly when the
parsed JSON carries a truthy `error` field; any other JSON — required
fields present or not — resolves verbatim: there is no required-field
check. -/
theorem gateway_close_error_handling (code : ℤ) (errOut : String) (parsed : Option Json)
    (hcode : code = 0) :
    (parsed = none → onProcClose code errOut parsed = .rejected "Invalid prediction response")
    ∧ (parsed = some .null →
        onProcClose code errOut parsed = .rejected "Invalid prediction response")
    ∧ (∀ j v, parsed = some j → errorField j = some v → jsTruthy v = true →
        onProcClose code errOut parsed = .rejected (jsErrorMessage v))
    ∧ (∀ j, parsed = some j → j ≠ .null → errorField j = none →
        onProcClose code errOut parsed = .resolved j)
    ∧ (∀ j v, parsed = some j → errorField j = some v → jsTruthy v = false →
        onProcClose code errOut parsed = .resolved j) := by
  subst hcode
  refine ⟨?_, ?_, ?_, ?_, ?_⟩
  · intro h; subst h; rfl
  · intro h; subst h; rfl
  · intro j v hp he ht
    subst hp
    cases j <;> simp [errorField] at he <;> simp [onProcClose, errorField, he, ht]
  · intro j hp hne he
    subst hp
    cases j
    case null => exact absurd rfl hne
    all_goals simp [onProcClose, errorField] at he ⊢ <;> simp [he]
  · intro j v hp he ht
    subst hp
    cases j <;> simp [errorField] at he <;> simp [onProcClose, errorField, he, ht]

/-- Witness for C9 (amended): a truthy `error` field rejects with that
message. -/
theorem gateway_close_error_handling_witness :
    onProcClose 0 "" (some (Json.obj [("error", Json.str "model failed")]))
      = .rejected "model failed" :=
  (gateway_close_error_handling 0 "" (some (Json.obj [("error", Json.str "model failed")]))
      rfl).2.2.1 (Json.obj [("error", Json.str "model failed")]) (Json.str "model failed")
    rfl rfl rfl

/-! Claim C10: the 15-second timeout -/

/-- Claim C10: Every gateway call settles within 15000 ms; when the
process does not close within the timeout, the timer kills it and the
promise rejects with the timeout error; and in the Prediction flow that
rejection clears the user's session. -/
theorem prediction_timeout_clears_session (b : ProcBehavior) (s : PredSession)
    (text : String) (ok : Bool)
    (hstate : s.state = "awaiting_parameters") (htext : text ≠ "")
    (hcancel : jsToLower text ≠ "/cancel")
    (hvalid : validateParameters (jsSplitTokens text) = .valid) :
    (makeModelPrediction b).settledAt ≤ 15000
    ∧ ((b.closeAt = none ∨ ∃ t, b.closeAt = some t ∧ 15000 < t) →
        (makeModelPrediction b).killed = true
        ∧ (makeModelPrediction b).outcome = .rejected "Prediction timeout"
        ∧ (handlePredictionResponse (some s) text (makeModelPrediction b).outcome ok).1
            = none) := by
  constructor
  · rcases hb : b.closeAt with - | t
    · simp [makeModelPrediction, hb, PREDICTION_TIMEOUT_MS]
    · simp only [makeModelPrediction, hb, PREDICTION_TIMEOUT_MS]
      by_cases htle : t ≤ 15000
      · simp [htle]
      · simp [htle]
  · intro hexp
    have hout : (makeModelPrediction b).killed = true
        ∧ (makeModelPrediction b).outcome = .rejected "Prediction timeout" := by
      rcases hexp with hb | ⟨t, hb, htgt⟩
      · simp [makeModelPrediction, hb]
      · have : ¬ t ≤ PREDICTION_TIMEOUT_MS := by
          rw [PREDICTION_TIMEOUT_MS]; omega
        simp [makeModelPrediction, hb, this]
    refine ⟨hout.1, hout.2, ?_⟩
    rw [hout.2]
    simp [handlePredictionResponse, htext, hstate, hcancel, hvalid]

/-- Witness for C10: a process that never closes is killed at 15000 ms,
the promise rejects with the timeout message, and the session of a user
who had sent valid parameters is cleared. -/
theorem prediction_timeout_clears_session_witness :
    (makeModelPrediction { closeAt := none, exitCode := 0, errorOutput := "", parsedOutput := none }).settledAt ≤ 15000
    ∧ (makeModelPrediction { closeAt := none, exitCode := 0, errorOutput := "", parsedOutput := none }).killed = true
    ∧ (makeModelPrediction { closeAt := none, exitCode := 0, errorOutput := "", parsedOutput := none }).outcome
        = .rejected "Prediction timeout"
    ∧ (handlePredictionResponse (some { state := "awaiting_parameters" })
        "2 2 6 1 9 340 34 10"
        (makeModelPrediction { closeAt := none, exitCode := 0, errorOutput := "", parsedOutput := none }).outcome
        true).1 = none := by
  refine ⟨?_, ?_⟩
  · exact (prediction_timeout_clears_session
      { closeAt := none, exitCode := 0, errorOutput := "", parsedOutput := none }
      { state := "awaiting_parameters" } "2 2 6 1 9 340 34 10" true
      rfl (by decide) (by decide) (by decide)).1
  · exact (prediction_timeout_clears_session
      { closeAt := none, exitCode := 0, errorOutput := "", parsedOutput := none }
      { state := "awaiting_parameters" } "2 2 6 1 9 340 34 10" true
      rfl (by decide) (by decide) (by decide)).2 (Or.inl rfl)
